import Mathlib

/-!
Verification development for the air-quality pipeline
(`modules/data_fetcher.py`, `modules/data_processor.py`).

The Python functions are shallowly embedded as executable Lean
definitions.  Network calls are modelled by an explicit environment
mapping each request to the response the server returns; pandas
primitives used by `data_processor.py` are modelled on lists, with
NaN encoded by `Option`.  Machine floats are modelled by `ℚ` (the
values the spec exercises — `15.5`, `18.2`, means of one or two
members — are exactly representable in binary floating point, so
`ℚ` arithmetic agrees with the source on every claim below).
-/

namespace AirQuality

/-! ### Modelled Python string primitives -/

/-- Association-table get: first matching key wins, default is the
character itself.  Used to model Python's per-character case mapping. -/
def tblGet : List (Char × Char) → Char → Char
  | [], c => c
  | (o, n) :: r, c => if c = o then n else tblGet r c

/-- Modelled from Python `str.lower`, restricted to the Latin letters this
module manipulates (ASCII `A`-`Z` plus the accented uppercase letters whose
lowercase forms appear in the fetcher's tables).  Other characters are
unchanged. -/
def lowTable : List (Char × Char) :=
  [('A','a'),('B','b'),('C','c'),('D','d'),('E','e'),('F','f'),('G','g'),
   ('H','h'),('I','i'),('J','j'),('K','k'),('L','l'),('M','m'),('N','n'),
   ('O','o'),('P','p'),('Q','q'),('R','r'),('S','s'),('T','t'),('U','u'),
   ('V','v'),('W','w'),('X','x'),('Y','y'),('Z','z'),
   ('À','à'),('Á','á'),('Â','â'),('Ã','ã'),('Ç','ç'),
   ('É','é'),('È','è'),('Ê','ê'),
   ('Í','í'),('Ì','ì'),('Î','î'),('Ñ','ñ'),
   ('Ó','ó'),('Ò','ò'),('Ô','ô'),
   ('Ú','ú'),('Ù','ù'),('Û','û')]

def pyLowerChar (c : Char) : Char := tblGet lowTable c

/-- Python `text.lower()` on a whole string. -/
def pyLower (s : String) : String := String.mk (s.data.map pyLowerChar)

/-- Modelled from Python `str.upper` restricted to ASCII (country ISO codes). -/
def upTable : List (Char × Char) :=
  [('a','A'),('b','B'),('c','C'),('d','D'),('e','E'),('f','F'),('g','G'),
   ('h','H'),('i','I'),('j','J'),('k','K'),('l','L'),('m','M'),('n','N'),
   ('o','O'),('p','P'),('q','Q'),('r','R'),('s','S'),('t','T'),('u','U'),
   ('v','V'),('w','W'),('x','X'),('y','Y'),('z','Z')]

def pyUpper (s : String) : String := String.mk (s.data.map (tblGet upTable))

/-- `text.replace(old, new)` for one-character `old`/`new` is a
per-character map over the string. -/
def replaceAll (cs : List Char) (o n : Char) : List Char :=
  cs.map (fun c => if c = o then n else c)

/-- The accent table of `normalize_text` (data_fetcher.py lines 114-121),
in Python dict insertion order; the loop applies each pair with
`text.replace(old, new)` sequentially. -/
def replacements : List (Char × Char) :=
  [('ã','a'),('á','a'),('â','a'),('à','a'),
   ('é','e'),('ê','e'),('è','e'),
   ('í','i'),('î','i'),('ì','i'),
   ('ó','o'),('ô','o'),('ò','o'),
   ('ú','u'),('û','u'),('ù','u'),
   ('ç','c'),('ñ','n')]

/-- The sequential effect of the replacement loop on one character:
pair `k` is applied to the result of pairs `1..k-1`. -/
def applySeq : List (Char × Char) → Char → Char
  | [], c => c
  | (o, n) :: r, c => applySeq r (if c = o then n else c)

/-- One fully normalized character: lower-cased, then run through the
replacement loop. -/
def normChar (c : Char) : Char := applySeq replacements (pyLowerChar c)

/-- `normalize_text` (data_fetcher.py lines 108-124).  `None` or the empty
string yield `""`; otherwise the text is lower-cased and each accent-table
pair is applied with `str.replace` in order. -/
def normalize_text : Option String → String
  | none => ""
  | some s =>
      if s = "" then ""
      else String.mk (replacements.foldl (fun cs p => replaceAll cs p.1 p.2)
        (s.data.map pyLowerChar))

/-! ### Basic lemmas about the normalizer -/

theorem foldl_replaceAll_eq_map (ps : List (Char × Char)) (cs : List Char) :
    ps.foldl (fun cs p => replaceAll cs p.1 p.2) cs = cs.map (applySeq ps) := by
  induction ps generalizing cs with
  | nil => simp [applySeq]
  | cons p r ih =>
      cases p with
      | mk o n =>
        have hfun : applySeq r ∘ (fun c => if c = o then n else c) =
            applySeq ((o, n) :: r) := by
          funext c
          simp [applySeq]
        rw [List.foldl_cons, ih, replaceAll, List.map_map, hfun]

theorem normChar_def (c : Char) : normChar c = applySeq replacements (pyLowerChar c) :=
  rfl

theorem map_normChar_decomp (l : List Char) :
    List.map (applySeq replacements) (List.map pyLowerChar l) = List.map normChar l := by
  induction l with
  | nil => simp only [List.map_nil]
  | cons c t ih =>
      simp only [List.map_cons]
      rw [ih, ← normChar_def]

theorem normalize_text_eq_map (s : String) (hs : s ≠ "") :
    normalize_text (some s) = String.mk (s.data.map normChar) := by
  simp only [normalize_text, if_neg hs, foldl_replaceAll_eq_map]
  rw [map_normChar_decomp]

theorem tblGet_id_of_not_mem (t : List (Char × Char)) (c : Char)
    (h : c ∉ t.map Prod.fst) : tblGet t c = c := by
  induction t with
  | nil => rfl
  | cons p r ih =>
      simp only [List.map_cons, List.mem_cons] at h
      push_neg at h
      simp only [tblGet, if_neg h.1]
      exact ih h.2

theorem applySeq_id_of_not_mem (ps : List (Char × Char)) (c : Char)
    (h : c ∉ ps.map Prod.fst) : applySeq ps c = c := by
  induction ps with
  | nil => rfl
  | cons p r ih =>
      simp only [List.map_cons, List.mem_cons] at h
      push_neg at h
      simp only [applySeq, if_neg h.1]
      exact ih h.2

/-- Every fully normalized character is a fixed point of lower-casing and
of the replacement loop. -/
theorem normChar_fixed (c : Char) :
    pyLowerChar (normChar c) = normChar c ∧
      applySeq replacements (normChar c) = normChar c := by
  by_cases hlow : c ∈ lowTable.map Prod.fst
  · -- `c` is an uppercase letter of the table: finitely many cases.
    simp only [lowTable, List.map_cons, List.map_nil, List.mem_cons,
      List.not_mem_nil, or_false] at hlow
    rcases hlow with rfl|rfl|rfl|rfl|rfl|rfl|rfl|rfl|rfl|rfl|rfl|rfl|rfl|rfl|
      rfl|rfl|rfl|rfl|rfl|rfl|rfl|rfl|rfl|rfl|rfl|rfl|rfl|rfl|rfl|rfl|rfl|
      rfl|rfl|rfl|rfl|rfl|rfl|rfl|rfl|rfl|rfl|rfl|rfl|rfl <;> exact ⟨by decide, by decide⟩
  · have hc : pyLowerChar c = c := tblGet_id_of_not_mem _ _ hlow
    by_cases hrep : c ∈ replacements.map Prod.fst
    · -- `c` is an accented lowercase letter: finitely many cases.
      simp only [replacements, List.map_cons, List.map_nil, List.mem_cons,
        List.not_mem_nil, or_false] at hrep
      rcases hrep with rfl|rfl|rfl|rfl|rfl|rfl|rfl|rfl|rfl|rfl|rfl|rfl|rfl|
        rfl|rfl|rfl|rfl|rfl <;> exact ⟨by decide, by decide⟩
    · have hr : applySeq replacements c = c := applySeq_id_of_not_mem _ _ hrep
      have hn : normChar c = c := by simp [normChar, hc, hr]
      rw [hn]
      exact ⟨hc, hr⟩

theorem normChar_idem (c : Char) : normChar (normChar c) = normChar c := by
  have h := normChar_fixed c
  calc normChar (normChar c) = applySeq replacements (pyLowerChar (normChar c)) := rfl
    _ = applySeq replacements (normChar c) := by rw [h.1]
    _ = normChar c := h.2

theorem map_normChar_idem (l : List Char) :
    List.map normChar (List.map normChar l) = List.map normChar l := by
  induction l with
  | nil => simp only [List.map_nil]
  | cons c t ih =>
      simp only [List.map_cons]
      rw [normChar_idem, ih]

theorem normalize_text_idem (t : Option String) :
    normalize_text (some (normalize_text t)) = normalize_text t := by
  cases t with
  | none => rfl
  | some s =>
      by_cases hs : s = ""
      · subst hs; rfl
      · rw [normalize_text_eq_map s hs]
        by_cases h2 : String.mk (s.data.map normChar) = ""
        · rw [h2]; rfl
        · rw [normalize_text_eq_map _ h2]
          have hdata : (String.mk (s.data.map normChar)).data = s.data.map normChar := rfl
          rw [hdata, map_normChar_idem]

/-- C9: `normalize_text` lower-cases and strips the fixed accent table
(ã,á,â,à,é,ê,è,í,î,ì,ó,ô,ò,ú,û,ù,ç,ñ); empty or absent input yields `""`
without failing; `normalize("São Paulo") = "sao paulo"`; and normalization
is idempotent. -/
theorem claim_C9 :
    (normalize_text none = "" ∧ normalize_text (some "") = "")
    ∧ normalize_text (some "São Paulo") = "sao paulo"
    ∧ replacements.all (fun p => normChar p.1 == p.2) = true
    ∧ ∀ t : Option String, normalize_text (some (normalize_text t)) = normalize_text t :=
  ⟨⟨rfl, rfl⟩, by decide, by decide, normalize_text_idem⟩

/-! ### Data model of the fetcher (`data_fetcher.py`)

JSON objects are modelled by structures whose fields are `Option`-valued
where the source accesses them with `dict.get` (so `none` = key absent);
fields read by direct subscript (`loc['id']`) are required.  Network
traffic is modelled by an environment mapping each request the function
can issue to the server's response; `Resp.exc` is a request that raised. -/

structure Provider where
  name : Option String
deriving DecidableEq

structure SensorParam where
  name : Option String
  units : Option String
deriving DecidableEq

structure Sensor where
  id : Option Nat
  parameter : Option SensorParam
deriving DecidableEq

structure CountryObj where
  code : Option String
deriving DecidableEq

structure Location where
  id : Nat
  name : Option String
  locality : Option String
  provider : Option Provider
  sensors : Option (List Sensor)
  country : Option CountryObj
deriving DecidableEq

structure CountryRec where
  code : Option String
  id : Option Nat
deriving DecidableEq

structure DTObj where
  utc : Option String
deriving DecidableEq

structure RawResult where
  datetime : Option DTObj
  value : Option ℚ
  sensorsId : Option Nat
deriving DecidableEq

inductive Resp (α : Type) where
  | r (status : Nat) (body : α)
  | exc
deriving DecidableEq

structure CountriesBody where
  results : List CountryRec
deriving DecidableEq

structure PageBody where
  results : List Location
  found : Nat
deriving DecidableEq

structure LatestBody where
  results : List RawResult
deriving DecidableEq

/-- The HTTP responses observed during one run of
`fetch_air_quality_data`: the countries request, the locations listing
request for each page number, and the `latest` request for each
location id. -/
structure Env where
  countries : Resp CountriesBody
  locPage : Nat → Resp PageBody
  latest : Nat → Resp LatestBody

/-- The status code of a response, `none` when the request raised. -/
def respStatus {α : Type} : Resp α → Option Nat
  | .r s _ => some s
  | .exc => none

/-! ### Substring matching (Python's `in` on strings) -/

def leadsWith : List Char → List Char → Bool
  | [], _ => true
  | _ :: _, [] => false
  | a :: as, b :: bs => a == b && leadsWith as bs

def occursInL (needle : List Char) : List Char → Bool
  | [] => needle.isEmpty
  | b :: t => leadsWith needle (b :: t) || occursInL needle t

/-- Python `needle in hay` for strings. -/
def occursIn (needle hay : String) : Bool := occursInL needle.data hay.data

/-! ### City-name normalization and alias expansion
(`fetch_air_quality_data`, lines 97-155) -/

/-- The inline accent strip applied to the query city (lines 100-105).
It is a smaller table than `normalize_text`'s (no à,è,ì,ò,ù,î,û,ñ). -/
def inlineReplacements : List (Char × Char) :=
  [('ã','a'),('á','a'),('â','a'),('é','e'),('ê','e'),('í','i'),
   ('ó','o'),('ô','o'),('ú','u'),('ç','c')]

def cityNormalized (city : String) : String :=
  String.mk (inlineReplacements.foldl (fun cs p => replaceAll cs p.1 p.2)
    (city.data.map pyLowerChar))

/-- The static alias table `city_variants_map` (lines 135-146), in
source order. -/
def city_variants_map : List (String × List String) :=
  [("belo horizonte", ["belo horizonte", "bh", "belo-horizonte"]),
   ("brasilia", ["brasilia", "brasília", "brasil", "df"]),
   ("curitiba", ["curitiba", "curitiba-pr"]),
   ("porto alegre", ["porto alegre", "porto-alegre", "poa"]),
   ("fortaleza", ["fortaleza", "fortaleza-ce"]),
   ("salvador", ["salvador", "salvador-ba"]),
   ("recife", ["recife", "recife-pe"]),
   ("manaus", ["manaus", "manaus-am"]),
   ("sao paulo", ["sao paulo", "são paulo", "sp", "sao-paulo"]),
   ("rio de janeiro", ["rio de janeiro", "rio", "rj", "rio-de-janeiro"])]

/-- Variant expansion (lines 134-153).  The final `list(set(...))` has
unspecified iteration order in Python, so it is modelled by
first-occurrence deduplication; every use of the variant list is
order-insensitive (an existential over its members). -/
def city_variants (cn : String) : List String :=
  (city_variants_map.foldl
    (fun acc kv =>
      if kv.2.contains cn || kv.2.any (fun v => occursIn v cn) then acc ++ kv.2 else acc)
    [cn]).eraseDups

/-- The per-location match test of the resolver (lines 192-208): some
variant is a substring of the normalized name, locality or provider
name. -/
def locMatches (variants : List String) (loc : Location) : Bool :=
  let loc_name := normalize_text (some (loc.name.getD ""))
  let loc_locality := normalize_text (some (loc.locality.getD ""))
  let provider_name := normalize_text
    (some (match loc.provider with | none => "" | some p => p.name.getD ""))
  variants.any (fun v =>
    occursIn v loc_name || occursIn v loc_locality || occursIn v provider_name)

def limit_per_page : Nat := 100
def max_pages : Nat := 30

/-- The location-search pagination loop (lines 157-233).  The `while
page <= max_pages` condition with `page` incremented on every
non-breaking iteration is encoded by the fuel argument
`fuel = max_pages - page + 1`; the loop starts at `page = 1` with
`fuel = max_pages`.  The second component counts the page requests
issued; the first is `none` when a request raised (the exception
propagates to the caller's handler, which returns `None`). -/
def pageLoop (env : Env) (variants : List String) :
    Nat → Nat → List Location → Nat → Option (List Location) × Nat
  | 0, _, acc, cnt => (some acc, cnt)
  | fuel + 1, page, acc, cnt =>
    match env.locPage page with
    | .exc => (none, cnt + 1)
    | .r status body =>
      if status ≠ 200 then (some acc, cnt + 1)
      else if body.results.isEmpty then (some acc, cnt + 1)
      else
        let acc' := acc ++ body.results.filter (locMatches variants)
        let total_pages :=
          if 0 < body.found then (body.found + limit_per_page - 1) / limit_per_page else 1
        if 5 ≤ acc'.length then
          if min 3 total_pages ≤ page then (some acc', cnt + 1)
          else pageLoop env variants fuel (page + 1) acc' (cnt + 1)
        else if body.results.length < limit_per_page || total_pages ≤ page then
          (some acc', cnt + 1)
        else pageLoop env variants fuel (page + 1) acc' (cnt + 1)

/-! ### Latest readings and record normalization (lines 251-338) -/

def default_unit : String := "μg/m³"

/-- The sensor-matching loop (lines 288-294): the first sensor of
`location_info['sensors']` whose `id` equals the reading's `sensorsId`
(Python `None == None` is `True`, mirrored by `Option` `==`). -/
def sensorLookup (linfo : Option Location) (sid : Option Nat) : Option Sensor :=
  match linfo with
  | none => none
  | some l =>
    match l.sensors with
    | none => none
    | some ss => ss.find? (fun s => s.id == sid)

/-- Parameter name and unit resolution (lines 285-299 up to the
`unknown` fallback, which is applied separately): `none` in the first
component means `parameter_name` is still Python `None`. -/
def resolveParamUnit (linfo : Option Location) (sid : Option Nat) : Option String × String :=
  match sensorLookup linfo sid with
  | none => (none, default_unit)
  | some s =>
      (some ((s.parameter.bind SensorParam.name).getD ""),
       (s.parameter.bind SensorParam.units).getD default_unit)

/-- Python truthiness of an optional string (`None` and `""` are falsy). -/
def pyStrFalsy : Option String → Bool
  | none => true
  | some s => s == ""

/-- `x or y` for an optional string `x` and a string fallback `y`. -/
def pyOrD (a : Option String) (b : String) : String :=
  match a with
  | none => b
  | some s => if s = "" then b else s

/-- The canonical measurement record built at lines 304-315. -/
structure FRec where
  parameter : Option String
  value : ℚ
  unit : String
  date_utc : String
  location : String
  locationId : Nat
  city : String
  country : String
deriving DecidableEq

/-- One iteration of the result-conversion loop (lines 277-316),
producing the `formatted_result` dictionary. -/
def formattedResult (linfo : Option Location) (city country : String)
    (location_id : Nat) (r : RawResult) : FRec :=
  let pu := resolveParamUnit linfo r.sensorsId
  { parameter := if pyStrFalsy pu.1 then some "unknown" else pu.1
    value := r.value.getD 0
    unit := pu.2
    date_utc := match r.datetime with
      | none => ""
      | some d => d.utc.getD ""
    location := match linfo with
      | none => ""
      | some l => l.name.getD ""
    locationId := location_id
    city := match linfo with
      | none => city
      | some l => pyOrD l.locality (pyOrD l.name city)
    country := match linfo with
      | none => country
      | some l => match l.country with
          | none => country
          | some co => co.code.getD country }

/-- The per-location latest-readings loop (lines 258-331): 200 converts
and appends every raw result, 404 and any other non-fatal status skip
the location, 401 and 429 return `None` for the whole fetch, and an
exception inside the per-location `try` is caught and skips the
location. -/
def latestLoop (env : Env) (city country : String) (clocs : List Location) :
    List Nat → List FRec → Option (List FRec)
  | [], acc => some acc
  | i :: rest, acc =>
    match env.latest i with
    | .exc => latestLoop env city country clocs rest acc
    | .r status body =>
      if status = 200 then
        latestLoop env city country clocs rest
          (acc ++ body.results.map
            (formattedResult (clocs.find? (fun l => l.id == i)) city country i))
      else if status = 404 then latestLoop env city country clocs rest acc
      else if status = 401 then none
      else if status = 429 then none
      else latestLoop env city country clocs rest acc

/-- Python truthiness of an optional integer (`None` and `0` are falsy). -/
def pyNatFalsy : Option Nat → Bool
  | none => true
  | some n => n == 0

/-- `fetch_air_quality_data` (lines 34-351), for a caller that supplied an
API key (credential acquisition is outside the model; the environment
carries the responses the keyed requests receive). -/
def fetch_air_quality_data (env : Env) (city country : String) : Option (List FRec) :=
  match env.countries with
  | .exc => none
  | .r status body =>
    if status ≠ 200 then none
    else
      let cid := (body.results.find?
        (fun c => pyUpper (c.code.getD "") == pyUpper country)).bind CountryRec.id
      if pyNatFalsy cid then none
      else
        let variants := city_variants (cityNormalized city)
        match (pageLoop env variants max_pages 1 [] 0).1 with
        | none => none
        | some clocs =>
          if clocs.isEmpty then none
          else
            match latestLoop env city country clocs ((clocs.take 5).map Location.id) [] with
            | none => none
            | some rs => if rs.isEmpty then none else some rs

/-! ### Concrete scenarios -/

/-- A directory location named `"São Paulo"` carrying one pm25 sensor. -/
def spLocation : Location :=
  { id := 123
    name := some "São Paulo"
    locality := none
    provider := none
    sensors := some [{ id := some 1
                       parameter := some { name := some "pm25", units := some "μg/m³" } }]
    country := none }

/-- A location whose fields match no variant of any queried city. -/
def dummyLocation : Location :=
  { id := 5, name := some "A", locality := none, provider := none,
    sensors := none, country := none }

/-- One-page directory for the C5 scenario. -/
def env_C5 : Env :=
  { countries := .r 200 ⟨[⟨some "BR", some 45⟩]⟩
    locPage := fun p => if p = 1 then .r 200 ⟨[spLocation], 1⟩ else .r 200 ⟨[], 0⟩
    latest := fun _ => .r 200 ⟨[]⟩ }

/-- C5: for the query `"sp"` and a directory containing a location named
`"São Paulo"`, the alias expansion yields a variant set containing
`"sao paulo"`, that location passes the match test, and the pagination
loop returns it in the accumulated location set. -/
theorem claim_C5 :
    (city_variants (cityNormalized "sp")).contains "sao paulo" = true
    ∧ locMatches (city_variants (cityNormalized "sp")) spLocation = true
    ∧ (pageLoop env_C5 (city_variants (cityNormalized "sp")) max_pages 1 [] 0).1
        = some [spLocation] :=
  ⟨by decide, by decide, by decide⟩

/-! ### C8: the pagination loop issues at most 30 page requests -/

theorem pageLoop_requests_le (env : Env) (v : List String) :
    ∀ (fuel page : Nat) (acc : List Location) (cnt : Nat),
      (pageLoop env v fuel page acc cnt).2 ≤ cnt + fuel := by
  intro fuel
  induction fuel with
  | zero =>
      intro page acc cnt
      simp [pageLoop]
  | succ f ih =>
      intro page acc cnt
      cases h : env.locPage page with
      | exc =>
          simp [pageLoop, h]
      | r status body =>
          simp only [pageLoop, h]
          split_ifs <;>
            first
              | simp
              | (exact le_trans (ih (page + 1) _ (cnt + 1)) (by omega))

/-- C8: for every sequence of server responses, the location-search
pagination loop (a total function, hence terminating) issues at most 30
page requests.  `pageLoop env v max_pages 1 [] 0` is exactly the loop as
entered by `fetch_air_quality_data`. -/
theorem claim_C8 (env : Env) (v : List String) :
    (pageLoop env v max_pages 1 [] 0).2 ≤ 30 := by
  have h := pageLoop_requests_le env v max_pages 1 [] 0
  simpa [max_pages] using h

/-! ### C2: effect of a 401 on the listing requests -/

/-- Directory scenario for C2: page 1 returns a full page (100 locations,
one of them matching, 150 reported in total), page 2 returns 401, and the
latest-readings requests succeed. -/
def page1_C2 : PageBody := ⟨spLocation :: List.replicate 99 dummyLocation, 150⟩

/-- An integer as a rational in normal form (`decide`-friendly: the
constructor exposes numerator and denominator to iota reduction). -/
def qi (n : Nat) : ℚ := ⟨(n : Int), 1, one_ne_zero, Nat.coprime_one_right _⟩

/-- `15.5` as a rational in normal form. -/
def q15p5 : ℚ := ⟨31, 2, by decide, by decide⟩

/-- `18.2` as a rational in normal form. -/
def q18p2 : ℚ := ⟨91, 5, by decide, by decide⟩

def rawReading_C2 : RawResult :=
  ⟨some ⟨some "2024-01-01T12:00:00Z"⟩, some q15p5, some 1⟩

def env_C2 : Env :=
  { countries := .r 200 ⟨[⟨some "BR", some 45⟩]⟩
    locPage := fun p => if p = 1 then .r 200 page1_C2 else .r 401 ⟨[], 0⟩
    latest := fun _ => .r 200 ⟨[rawReading_C2]⟩ }

/-- C2 counterexample: a locations-listing request returns 401, yet the
pipeline returns a (partial) table built from the locations accumulated
on the earlier page, not `None`. -/
theorem claim_C2_cex :
    respStatus (env_C2.locPage 2) = some 401
    ∧ (fetch_air_quality_data env_C2 "sp" "BR").isSome = true :=
  ⟨rfl, by decide⟩

/-- C2 amended: a 401 on the countries request aborts the pipeline with
`None`; a 401 on a locations-listing page only stops pagination, keeping
the locations accumulated on earlier pages, and the pipeline then
proceeds with them — in the concrete scenario it returns the partial
table. -/
theorem claim_C2_amended :
    (∀ (env : Env) (city country : String) (b : CountriesBody),
      env.countries = .r 401 b → fetch_air_quality_data env city country = none)
    ∧ (∀ (env : Env) (v : List String) (fuel page : Nat) (acc : List Location)
        (cnt : Nat) (b : PageBody),
        env.locPage page = .r 401 b →
          pageLoop env v (fuel + 1) page acc cnt = (some acc, cnt + 1))
    ∧ fetch_air_quality_data env_C2 "sp" "BR"
        = some [formattedResult (some spLocation) "sp" "BR" 123 rawReading_C2] := by
  refine ⟨?_, ?_, by decide⟩
  · intro env city country b h
    simp [fetch_air_quality_data, h]
  · intro env v fuel page acc cnt b h
    simp [pageLoop, h]

def env_401 : Env :=
  { countries := .r 401 ⟨[]⟩, locPage := fun _ => .exc, latest := fun _ => .exc }

theorem claim_C2_amended_witness :
    fetch_air_quality_data env_401 "x" "BR" = none
    ∧ pageLoop env_C2 [] 1 2 [] 0 = (some [], 1) :=
  ⟨claim_C2_amended.1 env_401 "x" "BR" ⟨[]⟩ rfl,
   claim_C2_amended.2.1 env_C2 [] 0 2 [] 0 ⟨[], 0⟩ rfl⟩

/-! ### C6: the record normalizer never fails, only degrades -/

theorem claim_C6 (linfo : Option Location) (city country : String) (lid : Nat)
    (r : RawResult) :
    ((formattedResult linfo city country lid r).parameter).isSome = true
    ∧ (sensorLookup linfo r.sensorsId = none →
        (formattedResult linfo city country lid r).parameter = some "unknown"
        ∧ (formattedResult linfo city country lid r).unit = default_unit)
    ∧ (linfo = none → (formattedResult linfo city country lid r).city = city)
    ∧ (∀ l s, linfo = some l → l.locality = some s → s ≠ "" →
        (formattedResult linfo city country lid r).city = s)
    ∧ (∀ l t, linfo = some l → pyStrFalsy l.locality = true → l.name = some t → t ≠ "" →
        (formattedResult linfo city country lid r).city = t)
    ∧ (∀ l, linfo = some l → pyStrFalsy l.locality = true → pyStrFalsy l.name = true →
        (formattedResult linfo city country lid r).city = city) := by
  refine ⟨?_, ?_, ?_, ?_, ?_, ?_⟩
  · by_cases h : pyStrFalsy (resolveParamUnit linfo r.sensorsId).1 = true
    · simp [formattedResult, h]
    · cases hp : (resolveParamUnit linfo r.sensorsId).1 with
      | none => simp [pyStrFalsy, hp] at h
      | some s => simp [formattedResult, hp, Bool.not_eq_true] at h ⊢; simp [h]
  · intro h
    simp [formattedResult, resolveParamUnit, h, pyStrFalsy, default_unit]
  · intro h
    simp [formattedResult, h]
  · intro l s hl hs hne
    simp [formattedResult, hl, pyOrD, hs, hne]
  · intro l t hl hloc hn hne
    cases hl2 : l.locality with
    | none => simp [formattedResult, hl, pyOrD, hl2, hn, hne]
    | some s =>
        rw [hl2] at hloc
        simp only [pyStrFalsy, beq_iff_eq] at hloc
        simp [formattedResult, hl, pyOrD, hl2, hloc, hn, hne]
  · intro l hl hloc hn
    cases hl2 : l.locality with
    | none =>
        cases hn2 : l.name with
        | none => simp [formattedResult, hl, pyOrD, hl2, hn2]
        | some t =>
            rw [hn2] at hn
            simp only [pyStrFalsy, beq_iff_eq] at hn
            simp [formattedResult, hl, pyOrD, hl2, hn2, hn]
    | some s =>
        rw [hl2] at hloc
        simp only [pyStrFalsy, beq_iff_eq] at hloc
        cases hn2 : l.name with
        | none => simp [formattedResult, hl, pyOrD, hl2, hloc, hn2]
        | some t =>
            rw [hn2] at hn
            simp only [pyStrFalsy, beq_iff_eq] at hn
            simp [formattedResult, hl, pyOrD, hl2, hloc, hn2, hn]

theorem claim_C6_witness :
    (formattedResult none "Santos" "BR" 1 ⟨none, none, none⟩).parameter = some "unknown"
    ∧ (formattedResult none "Santos" "BR" 1 ⟨none, none, none⟩).unit = default_unit
    ∧ (formattedResult none "Santos" "BR" 1 ⟨none, none, none⟩).city = "Santos" :=
  ⟨((claim_C6 none "Santos" "BR" 1 ⟨none, none, none⟩).2.1 rfl).1,
   ((claim_C6 none "Santos" "BR" 1 ⟨none, none, none⟩).2.1 rfl).2,
   (claim_C6 none "Santos" "BR" 1 ⟨none, none, none⟩).2.2.1 rfl⟩

/-! ### C7: per-location failure handling in the latest-readings phase -/

theorem claim_C7 :
    (∀ clocs : List Location, ((clocs.take 5).map Location.id).length ≤ 5)
    ∧ (∀ (env : Env) (c k : String) (clocs : List Location) (i : Nat)
        (rest : List Nat) (acc : List FRec),
        env.latest i = .exc →
          latestLoop env c k clocs (i :: rest) acc = latestLoop env c k clocs rest acc)
    ∧ (∀ (env : Env) (c k : String) (clocs : List Location) (i : Nat)
        (rest : List Nat) (acc : List FRec) (b : LatestBody),
        env.latest i = .r 404 b →
          latestLoop env c k clocs (i :: rest) acc = latestLoop env c k clocs rest acc)
    ∧ (∀ (env : Env) (c k : String) (clocs : List Location) (i : Nat)
        (rest : List Nat) (acc : List FRec) (s : Nat) (b : LatestBody),
        env.latest i = .r s b → s ≠ 200 → s ≠ 404 → s ≠ 401 → s ≠ 429 →
          latestLoop env c k clocs (i :: rest) acc = latestLoop env c k clocs rest acc)
    ∧ (∀ (env : Env) (c k : String) (clocs : List Location) (i : Nat)
        (rest : List Nat) (acc : List FRec) (b : LatestBody),
        env.latest i = .r 401 b → latestLoop env c k clocs (i :: rest) acc = none)
    ∧ (∀ (env : Env) (c k : String) (clocs : List Location) (i : Nat)
        (rest : List Nat) (acc : List FRec) (b : LatestBody),
        env.latest i = .r 429 b → latestLoop env c k clocs (i :: rest) acc = none) := by
  refine ⟨?_, ?_, ?_, ?_, ?_, ?_⟩
  · intro clocs
    simp [List.length_take]
  · intro env c k clocs i rest acc h
    simp [latestLoop, h]
  · intro env c k clocs i rest acc b h
    simp [latestLoop, h]
  · intro env c k clocs i rest acc s b h h200 h404 h401 h429
    simp [latestLoop, h, h200, h404, h401, h429]
  · intro env c k clocs i rest acc b h
    simp [latestLoop, h]
  · intro env c k clocs i rest acc b h
    simp [latestLoop, h]

def env_fatal : Env :=
  { countries := .exc, locPage := fun _ => .exc, latest := fun _ => .r 401 ⟨[]⟩ }

theorem claim_C7_witness :
    latestLoop env_fatal "c" "k" [] [7] [⟨some "pm25", 1, "u", "", "", 7, "c", "BR"⟩] = none :=
  claim_C7.2.2.2.2.1 env_fatal "c" "k" [] 7 [] _ ⟨[]⟩ rfl

/-! ### C10: a reading without a value is kept with value 0 -/

theorem claim_C10 :
    (∀ (linfo : Option Location) (city country : String) (lid : Nat) (r : RawResult),
      r.value = none → (formattedResult linfo city country lid r).value = 0)
    ∧ (∀ (env : Env) (c k : String) (clocs : List Location) (i : Nat)
        (rest : List Nat) (acc : List FRec) (b : LatestBody),
        env.latest i = .r 200 b →
          latestLoop env c k clocs (i :: rest) acc
            = latestLoop env c k clocs rest
                (acc ++ b.results.map
                  (formattedResult (clocs.find? (fun l => l.id == i)) c k i))
          ∧ (acc ++ b.results.map
              (formattedResult (clocs.find? (fun l => l.id == i)) c k i)).length
              = acc.length + b.results.length) := by
  constructor
  · intro linfo city country lid r h
    simp [formattedResult, h]
  · intro env c k clocs i rest acc b h
    constructor
    · simp [latestLoop, h]
    · simp

/-- A reading with no `value` key at all. -/
def valuelessReading : RawResult := ⟨some ⟨some "3"⟩, none, some 2⟩

def env_C10 : Env :=
  { countries := .exc, locPage := fun _ => .exc,
    latest := fun _ => .r 200 ⟨[valuelessReading]⟩ }

theorem claim_C10_witness :
    (formattedResult none "c" "BR" 9 ⟨none, none, none⟩).value = 0
    ∧ latestLoop env_C10 "c" "BR" [] [9] []
        = latestLoop env_C10 "c" "BR" [] []
            ([] ++ [valuelessReading].map (formattedResult none "c" "BR" 9)) :=
  ⟨claim_C10.1 none "c" "BR" 9 ⟨none, none, none⟩ rfl,
   (claim_C10.2 env_C10 "c" "BR" [] 9 [] [] ⟨[valuelessReading]⟩ rfl).1⟩

/-! ### Data model of the processor (`data_processor.py`)

A raw record is a Python dict; `Option` fields model key absence (the
DataFrame column then holds NaN for that row, and a column exists iff
some record has the key).  `pd.to_datetime` is modelled on the timestamp
encodings used in this development: a decimal-digit string denotes an
instant (larger = later), the empty string is NaT (pandas parses `""` to
NaT even with `errors="raise"`), and any other string raises
`ValueError` under `errors="raise"` or becomes NaT under
`errors="coerce"`. -/

/-- The value of a record's `date` key: either the v3 nested dict
`{"utc": ...}` or a bare value. -/
inductive DateField where
  | utcD (u : Option String)
  | rawD (s : String)
deriving DecidableEq

structure Raw where
  date : Option DateField
  datetimeF : Option String
  parameter : Option String
  value : Option ℚ
  unit : Option String
  location : Option String
  locationId : Option Nat
deriving DecidableEq

inductive ParseRes where
  | okT (t : Nat)
  | natT
  | errT
deriving DecidableEq

def digitsVal (s : String) : Nat :=
  s.data.foldl (fun n c => n * 10 + (c.toNat - 48)) 0

/-- Modelled `pd.to_datetime` on one string (see the section comment). -/
def pdToDatetime (s : String) : ParseRes :=
  if s = "" then .natT
  else if s.data.all Char.isDigit then .okT (digitsVal s)
  else .errT

/-- One element of the series built at line 40
(`x.get('utc','') if isinstance(x, dict) else x`), fed to `pd.to_datetime`
with `errors="raise"`: `none` means the element raised. -/
def parseRaise1 (r : Raw) : Option (Option Nat) :=
  match r.date with
  | none => some none
  | some (.utcD u) =>
      match pdToDatetime (u.getD "") with
      | .okT t => some (some t)
      | .natT => some none
      | .errT => none
  | some (.rawD s) =>
      match pdToDatetime s with
      | .okT t => some (some t)
      | .natT => some none
      | .errT => none

/-- `pd.to_datetime(df['date'], errors='coerce')` on one row (line 42):
a dict value in a coerced column becomes NaT. -/
def parseCoerceDate (r : Raw) : Option Nat :=
  match r.date with
  | none => none
  | some (.rawD s) =>
      match pdToDatetime s with
      | .okT t => some t
      | _ => none
  | some (.utcD _) => none

/-- `pd.to_datetime(df['datetime'], errors='coerce')` on one row (line 44). -/
def parseCoerceDT (r : Raw) : Option Nat :=
  match r.datetimeF with
  | none => none
  | some s =>
      match pdToDatetime s with
      | .okT t => some t
      | _ => none

def hasDateCol (data : List Raw) : Bool := data.any (fun r => r.date.isSome)
def hasDatetimeCol (data : List Raw) : Bool := data.any (fun r => r.datetimeF.isSome)

/-- `isinstance(df['date'].iloc[0], dict)` (line 39). -/
def firstIsDict (data : List Raw) : Bool :=
  match data with
  | [] => false
  | r :: _ =>
      match r.date with
      | some (.utcD _) => true
      | _ => false

def traverseRaise : List Raw → Option (List (Option Nat))
  | [] => some []
  | r :: rs =>
      match parseRaise1 r with
      | none => none
      | some d =>
          match traverseRaise rs with
          | none => none
          | some ds => some (d :: ds)

inductive ColParse where
  | missing
  | raised
  | okd (dts : List (Option Nat))
deriving DecidableEq

/-- The datetime-column construction of `process_data` (lines 38-47):
`raised` is the branch where `pd.to_datetime` (without `errors='coerce'`)
threw, which the outer handler turns into `None`; `missing` is the
"Coluna de data não encontrada" branch. -/
def parsedDatetimes (data : List Raw) : ColParse :=
  if hasDateCol data then
    if firstIsDict data then
      match traverseRaise data with
      | none => .raised
      | some dts => .okd dts
    else .okd (data.map parseCoerceDate)
  else if hasDatetimeCol data then .okd (data.map parseCoerceDT)
  else .missing

structure Row where
  dt : Nat
  raw : Raw
deriving DecidableEq

/-- `df.dropna(subset=['datetime'])` (line 50): rows paired with their
parsed instants, keeping only the rows whose instant is not NaT. -/
def validRows (data : List Raw) (dts : List (Option Nat)) : List Row :=
  (data.zip dts).filterMap (fun p => p.2.map (fun t => ⟨t, p.1⟩))

/-- The value of the `location` column used as a dedup key: a string, a
copied `locationId` integer, or NaN (lines 64-69). -/
inductive LKey where
  | ls (s : String)
  | lid (n : Nat)
  | lnan
deriving DecidableEq

def rowLKey (hasLoc hasLocId : Bool) (r : Raw) : LKey :=
  if hasLoc then
    match r.location with
    | some s => .ls s
    | none => .lnan
  else if hasLocId then
    match r.locationId with
    | some n => .lid n
    | none => .lnan
  else .ls "unknown"

/-- The `drop_duplicates` subset key `(datetime, parameter, location)`
(lines 72-76); pandas treats NaN as equal to NaN here, matching `Option`
equality. -/
def dedupKey (hasLoc hasLocId : Bool) (row : Row) : Nat × Option String × LKey :=
  (row.dt, row.raw.parameter, rowLKey hasLoc hasLocId row.raw)

/-- `drop_duplicates(...)` with `keep='first'` (the pandas default). -/
def dedupFirst (key : Row → Nat × Option String × LKey) :
    List (Nat × Option String × LKey) → List Row → List Row
  | _, [] => []
  | seen, r :: rs =>
      if key r ∈ seen then dedupFirst key seen rs
      else r :: dedupFirst key (key r :: seen) rs

/-- `df.sort_values('datetime')` (line 77), as an insertion sort: the
claims only depend on the output being ordered and a permutation of the
input. -/
def insertRow (r : Row) : List Row → List Row
  | [] => [r]
  | x :: xs => if r.dt ≤ x.dt then r :: x :: xs else x :: insertRow r xs

def sortRows : List Row → List Row
  | [] => []
  | r :: rs => insertRow r (sortRows rs)

/-- The processed DataFrame: its rows, plus whether the `unit` column
exists (column existence survives row filtering and is consulted by
`get_latest_measurements`). -/
structure PTable where
  rows : List Row
  hasUnit : Bool
deriving DecidableEq

/-- `process_data` (lines 15-84). -/
def process_data (data : List Raw) : Option PTable :=
  if data.isEmpty then none
  else
    match parsedDatetimes data with
    | .missing => none
    | .raised => none
    | .okd dts =>
        let rows := validRows data dts
        if rows.isEmpty then none
        else if (data.any fun r => r.parameter.isSome) = false then none
        else if (data.any fun r => r.value.isSome) = false then none
        else
          let hasLoc := data.any fun r => r.location.isSome
          let hasLocId := data.any fun r => r.locationId.isSome
          some { rows := sortRows (dedupFirst (dedupKey hasLoc hasLocId) [] rows)
                 hasUnit := data.any fun r => r.unit.isSome }

/-! ### `get_latest_measurements` (lines 87-123) -/

/-- `df['datetime'].max()` over the rows (the caller guarantees
nonemptiness, for which the fold base 0 is the identity). -/
def maxDt (rows : List Row) : Nat := rows.foldl (fun m r => max m r.dt) 0

/-- `Series.mean()` with pandas' default `skipna=True`: NaN values are
ignored; the mean of an all-NaN/empty series is NaN (`none`). -/
def meanVals (vals : List (Option ℚ)) : Option ℚ :=
  let present := vals.filterMap id
  if present.isEmpty then none
  else some (present.sum / (present.length : ℚ))

structure Entry where
  value : Option ℚ
  unit : String
  datetime : Nat
deriving DecidableEq

def eDefault : Entry := ⟨none, "", 0⟩

/-- `latest_data[latest_data['parameter'] == param]` (line 109): when
`param` is NaN, elementwise NaN comparison is everywhere False. -/
def groupRows (latestRows : List Row) (p : Option String) : List Row :=
  match p with
  | none => []
  | some s => latestRows.filter (fun r => r.raw.parameter == some s)

/-- The `{value, unit, datetime}` entry built at lines 110-117; `str`
of a NaN unit is the string `"nan"`. -/
def entryFor (tbl : PTable) (latest : Nat) (latestRows : List Row)
    (p : Option String) : Entry :=
  let g := groupRows latestRows p
  { value := meanVals (g.map (fun r => r.raw.value))
    unit :=
      if tbl.hasUnit && !g.isEmpty then
        match g with
        | [] => default_unit
        | r :: _ =>
            match r.raw.unit with
            | some s => s
            | none => "nan"
      else default_unit
    datetime := latest }

/-- `Series.unique()` (line 108): distinct values in first-occurrence
order. -/
def pyUniqueAux (seen : List (Option String)) :
    List (Option String) → List (Option String)
  | [] => []
  | a :: t => if a ∈ seen then pyUniqueAux seen t else a :: pyUniqueAux (a :: seen) t

def pyUnique (l : List (Option String)) : List (Option String) := pyUniqueAux [] l

/-- `get_latest_measurements` (lines 87-123), the measurements dict as an
association list keyed by parameter (a key is `none` when the parameter
cell is NaN). -/
def get_latest_measurements (df : Option PTable) : Option (List (Option String × Entry)) :=
  match df with
  | none => none
  | some tbl =>
      if tbl.rows.isEmpty then none
      else
        let latest := maxDt tbl.rows
        let latestRows := tbl.rows.filter (fun r => r.dt == latest)
        let params := pyUnique (latestRows.map (fun r => r.raw.parameter))
        some (params.map (fun p => (p, entryFor tbl latest latestRows p)))

/-- Lines 38-50 as one stage: the rows surviving timestamp parsing and
`dropna`, empty when the parse raised or no column existed. -/
def prepRows (data : List Raw) : List Row :=
  match parsedDatetimes data with
  | .okd dts => validRows data dts
  | _ => []

/-! ### Lemmas about deduplication and sorting -/

theorem dedupFirst_key_not_mem (key : Row → Nat × Option String × LKey) :
    ∀ (seen : List (Nat × Option String × LKey)) (l : List Row) (r : Row),
      r ∈ dedupFirst key seen l → key r ∉ seen := by
  intro seen l
  induction l generalizing seen with
  | nil =>
      intro r h
      simp [dedupFirst] at h
  | cons x xs ih =>
      intro r h
      by_cases hx : key x ∈ seen
      · rw [dedupFirst, if_pos hx] at h
        exact ih seen r h
      · rw [dedupFirst, if_neg hx] at h
        rcases List.mem_cons.1 h with rfl | h2
        · exact hx
        · intro hc
          exact ih (key x :: seen) r h2 (List.mem_cons_of_mem _ hc)

theorem dedupFirst_pairwise (key : Row → Nat × Option String × LKey) :
    ∀ (seen : List (Nat × Option String × LKey)) (l : List Row),
      (dedupFirst key seen l).Pairwise (fun a b => key a ≠ key b) := by
  intro seen l
  induction l generalizing seen with
  | nil => simp [dedupFirst]
  | cons x xs ih =>
      by_cases hx : key x ∈ seen
      · rw [dedupFirst, if_pos hx]
        exact ih seen
      · rw [dedupFirst, if_neg hx]
        refine List.pairwise_cons.2 ⟨?_, ih (key x :: seen)⟩
        intro b hb hc
        have hnot := dedupFirst_key_not_mem key (key x :: seen) xs b hb
        exact hnot (by rw [← hc]; exact List.mem_cons_self _ _)

theorem dedupFirst_find (key : Row → Nat × Option String × LKey) :
    ∀ (seen : List (Nat × Option String × LKey)) (l : List Row) (r : Row),
      r ∈ dedupFirst key seen l →
        l.find? (fun x => key x == key r) = some r := by
  intro seen l
  induction l generalizing seen with
  | nil =>
      intro r h
      simp [dedupFirst] at h
  | cons x xs ih =>
      intro r h
      by_cases hx : key x ∈ seen
      · rw [dedupFirst, if_pos hx] at h
        have hkr := dedupFirst_key_not_mem key seen xs r h
        have hne : (key x == key r) = false := by
          rw [beq_eq_false_iff_ne]
          intro hc
          exact hkr (hc ▸ hx)
        simp only [List.find?_cons, hne]
        exact ih seen r h
      · rw [dedupFirst, if_neg hx] at h
        rcases List.mem_cons.1 h with rfl | h2
        · simp [List.find?_cons]
        · have hkr := dedupFirst_key_not_mem key (key x :: seen) xs r h2
          have hne : (key x == key r) = false := by
            rw [beq_eq_false_iff_ne]
            intro hc
            exact hkr (by rw [← hc]; exact List.mem_cons_self _ _)
          simp only [List.find?_cons, hne]
          exact ih (key x :: seen) r h2

theorem insertRow_perm (r : Row) (l : List Row) : (insertRow r l).Perm (r :: l) := by
  induction l with
  | nil => simp [insertRow]
  | cons x xs ih =>
      rw [insertRow]
      split
      · exact List.Perm.refl _
      · exact (ih.cons x).trans (List.Perm.swap r x xs)

theorem sortRows_perm (l : List Row) : (sortRows l).Perm l := by
  induction l with
  | nil => simp [sortRows]
  | cons x xs ih => exact (insertRow_perm x (sortRows xs)).trans (ih.cons x)

theorem insertRow_sorted (r : Row) (l : List Row)
    (h : l.Pairwise (fun a b => a.dt ≤ b.dt)) :
    (insertRow r l).Pairwise (fun a b => a.dt ≤ b.dt) := by
  induction l with
  | nil => simp [insertRow]
  | cons x xs ih =>
      rcases List.pairwise_cons.1 h with ⟨hx, hxs⟩
      rw [insertRow]
      split
      next hle =>
        refine List.pairwise_cons.2 ⟨?_, h⟩
        intro b hb
        rcases List.mem_cons.1 hb with rfl | hb2
        · exact hle
        · exact le_trans hle (hx b hb2)
      next hgt =>
        refine List.pairwise_cons.2 ⟨?_, ih hxs⟩
        intro b hb
        rcases List.mem_cons.1 ((insertRow_perm r xs).mem_iff.1 hb) with rfl | hb2
        · omega
        · exact hx b hb2

theorem sortRows_sorted (l : List Row) :
    (sortRows l).Pairwise (fun a b => a.dt ≤ b.dt) := by
  induction l with
  | nil => simp [sortRows]
  | cons x xs ih => exact insertRow_sorted x (sortRows xs) ih

/-! ### C3: the processed table is key-unique and time-sorted -/

/-- C3: whenever `process_data` returns a table, no two of its rows share
the `(timestamp, parameter, location)` key, the rows are sorted
non-decreasing by timestamp, and each returned row is the first row with
its key among the rows that survived timestamp parsing. -/
theorem claim_C3 (data : List Raw) (t : PTable) (h : process_data data = some t) :
    t.rows.Pairwise (fun a b =>
      dedupKey (data.any fun q => q.location.isSome) (data.any fun q => q.locationId.isSome) a
        ≠ dedupKey (data.any fun q => q.location.isSome) (data.any fun q => q.locationId.isSome) b)
    ∧ t.rows.Pairwise (fun a b => a.dt ≤ b.dt)
    ∧ ∀ r ∈ t.rows,
        (prepRows data).find? (fun x =>
          dedupKey (data.any fun q => q.location.isSome)
              (data.any fun q => q.locationId.isSome) x
            == dedupKey (data.any fun q => q.location.isSome)
              (data.any fun q => q.locationId.isSome) r) = some r := by
  simp only [process_data] at h
  split at h
  · exact absurd h (by simp)
  · split at h
    next => exact absurd h (by simp)
    next => exact absurd h (by simp)
    next dts heq =>
        split at h
        · exact absurd h (by simp)
        · split at h
          · exact absurd h (by simp)
          · split at h
            · exact absurd h (by simp)
            · rw [Option.some_inj] at h
              subst h
              have hprep : prepRows data = validRows data dts := by
                simp [prepRows, heq]
              set key := dedupKey (data.any fun q => q.location.isSome)
                (data.any fun q => q.locationId.isSome) with hkey
              have sp := sortRows_perm (dedupFirst key [] (validRows data dts))
              refine ⟨?_, sortRows_sorted _, ?_⟩
              · exact (sp.pairwise_iff (fun hab => fun hc => hab hc.symm)).2
                  (dedupFirst_pairwise key [] _)
              · intro r hr
                rw [hprep]
                exact dedupFirst_find key [] _ r (sp.subset hr)

def c3data : List Raw :=
  [{ date := some (.utcD (some "2")), datetimeF := none, parameter := some "pm25",
     value := some (qi 3), unit := some "u", location := some "L", locationId := none },
   { date := some (.utcD (some "1")), datetimeF := none, parameter := some "o3",
     value := some (qi 4), unit := some "u", location := some "L", locationId := none },
   { date := some (.utcD (some "2")), datetimeF := none, parameter := some "pm25",
     value := some (qi 5), unit := some "u", location := some "L", locationId := none }]

def tC3 : PTable := (process_data c3data).getD ⟨[], false⟩

theorem claim_C3_witness :
    tC3.rows.Pairwise (fun a b =>
      dedupKey (c3data.any fun q => q.location.isSome) (c3data.any fun q => q.locationId.isSome) a
        ≠ dedupKey (c3data.any fun q => q.location.isSome) (c3data.any fun q => q.locationId.isSome) b)
    ∧ tC3.rows.Pairwise (fun a b => a.dt ≤ b.dt)
    ∧ ∀ r ∈ tC3.rows,
        (prepRows c3data).find? (fun x =>
          dedupKey (c3data.any fun q => q.location.isSome)
              (c3data.any fun q => q.locationId.isSome) x
            == dedupKey (c3data.any fun q => q.location.isSome)
              (c3data.any fun q => q.locationId.isSome) r) = some r :=
  claim_C3 c3data tC3 (by decide)

/-! ### C4: unparseable timestamps -/

def c4good : Raw :=
  { date := some (.utcD (some "1")), datetimeF := none, parameter := some "pm25",
    value := some (qi 10), unit := some "u", location := some "L", locationId := none }

def c4bad : Raw :=
  { date := some (.utcD (some "not-a-date")), datetimeF := none, parameter := some "pm25",
    value := some (qi 11), unit := some "u", location := some "L", locationId := none }

def c4emptyUtc : Raw :=
  { date := some (.utcD (some "")), datetimeF := none, parameter := some "pm25",
    value := some (qi 12), unit := some "u", location := some "L", locationId := none }

/-- C4 counterexample: in the dict-shaped `date` branch one unparseable
timestamp makes the whole call return `None` (the parse raises and the
outer handler catches), even though another record parses fine and the
`parameter`/`value` columns are present — so the failing record is not
merely dropped. -/
theorem claim_C4_cex :
    process_data [c4good, c4bad] = none
    ∧ parsedDatetimes [c4good, c4bad] = .raised
    ∧ (process_data [c4good]).isSome = true
    ∧ ([c4good, c4bad].any fun r => r.parameter.isSome) = true
    ∧ ([c4good, c4bad].any fun r => r.value.isSome) = true := by
  refine ⟨by decide, by decide, by decide, by decide, by decide⟩

/-- C4 amended: outside the dict-shaped `date` branch the parse never
raises (unparseable timestamps are coerced to NaT and the rows dropped
individually); whenever the parse does not raise, the call returns
`None` exactly when the input is empty, no row survives the timestamp
filter, or the `parameter`/`value` column is missing; and a record whose
dict timestamp is empty (NaT) is dropped individually while the rest of
the call succeeds. -/
theorem claim_C4_amended :
    (∀ data : List Raw,
      ¬(hasDateCol data = true ∧ firstIsDict data = true) →
        parsedDatetimes data ≠ .raised)
    ∧ (∀ (data : List Raw) (dts : List (Option Nat)),
        parsedDatetimes data = .okd dts →
          (process_data data = none ↔
            (data.isEmpty = true ∨ (validRows data dts).isEmpty = true
              ∨ (data.any fun r => r.parameter.isSome) = false
              ∨ (data.any fun r => r.value.isSome) = false)))
    ∧ process_data [c4good, c4emptyUtc] = some ⟨[⟨1, c4good⟩], true⟩ := by
  refine ⟨?_, ?_, by decide⟩
  · intro data hnot
    by_cases h1 : hasDateCol data = true
    · by_cases h2 : firstIsDict data = true
      · exact absurd ⟨h1, h2⟩ hnot
      · simp only [Bool.not_eq_true] at h2
        simp [parsedDatetimes, h1, h2]
    · simp only [Bool.not_eq_true] at h1
      by_cases h3 : hasDatetimeCol data = true
      · simp [parsedDatetimes, h1, h3]
      · simp only [Bool.not_eq_true] at h3
        simp [parsedDatetimes, h1, h3]
  · intro data dts heq
    simp only [process_data, heq]
    split_ifs with h1 h2 h3 h4 <;> simp_all

theorem claim_C4_amended_witness :
    process_data [c4good] = none ↔
      ([c4good].isEmpty = true ∨ (validRows [c4good] [some 1]).isEmpty = true
        ∨ ([c4good].any fun r => r.parameter.isSome) = false
        ∨ ([c4good].any fun r => r.value.isSome) = false) :=
  claim_C4_amended.2.1 [c4good] [some 1] (by decide)

/-! ### C1: latest measurements per parameter -/

theorem pyUniqueAux_mem :
    ∀ (seen : List (Option String)) (l : List (Option String)) (a : Option String),
      a ∈ pyUniqueAux seen l ↔ a ∈ l ∧ a ∉ seen := by
  intro seen l
  induction l generalizing seen with
  | nil => intro a; simp [pyUniqueAux]
  | cons x t ih =>
      intro a
      by_cases hx : x ∈ seen
      · rw [pyUniqueAux, if_pos hx, ih]
        constructor
        · rintro ⟨h1, h2⟩
          exact ⟨List.mem_cons_of_mem _ h1, h2⟩
        · rintro ⟨h1, h2⟩
          rcases List.mem_cons.1 h1 with rfl | h3
          · exact absurd hx h2
          · exact ⟨h3, h2⟩
      · rw [pyUniqueAux, if_neg hx]
        constructor
        · intro h
          rcases List.mem_cons.1 h with rfl | h2
          · exact ⟨List.mem_cons_self _ _, hx⟩
          · rcases (ih _ a).1 h2 with ⟨h3, h4⟩
            exact ⟨List.mem_cons_of_mem _ h3,
              fun hc => h4 (List.mem_cons_of_mem _ hc)⟩
        · rintro ⟨h1, h2⟩
          rcases List.mem_cons.1 h1 with rfl | h3
          · exact List.mem_cons_self _ _
          · by_cases hax : a = x
            · subst hax
              exact List.mem_cons_self _ _
            · refine List.mem_cons_of_mem _ ((ih _ a).2 ⟨h3, ?_⟩)
              intro hc
              rcases List.mem_cons.1 hc with h5 | h5
              · exact hax h5
              · exact h2 h5

theorem pyUnique_mem (l : List (Option String)) (a : Option String) :
    a ∈ pyUnique l ↔ a ∈ l := by
  rw [pyUnique, pyUniqueAux_mem]
  simp

theorem lookup_map_self (params : List (Option String)) (f : Option String → Entry)
    (k : Option String) :
    (params.map (fun p => (p, f p))).lookup k
      = if k ∈ params then some (f k) else none := by
  induction params with
  | nil => simp [List.lookup]
  | cons q qs ih =>
      simp only [List.map_cons, List.lookup]
      by_cases hk : k = q
      · subst hk
        simp
      · have hb : (k == q) = false := beq_false_of_ne hk
        simp [hb, ih, hk]

/-- Stated from the amended claim: the parameters that appear among the
records carrying the table's maximum timestamp. -/
def specParamsAtMax (tbl : PTable) : List String :=
  (tbl.rows.filter fun r => r.dt == maxDt tbl.rows).filterMap fun r => r.raw.parameter

/-- Stated from the amended claim: the arithmetic mean of the values of
parameter `p`'s records at the table's maximum timestamp. -/
def specMeanAtMax (tbl : PTable) (p : String) : Option ℚ :=
  meanVals ((tbl.rows.filter fun r =>
    r.raw.parameter == some p && r.dt == maxDt tbl.rows).map fun r => r.raw.value)

theorem qi_eq (n : Nat) : qi n = (n : ℚ) := rfl

theorem meanVals_singleton (v : ℚ) : meanVals [some v] = some v := by
  simp [meanVals]

theorem meanVals_pair (a b : ℚ) : meanVals [some a, some b] = some ((a + b) / 2) := by
  simp [meanVals]

/-- Records (t1, pm25, 15.5) and (t2, pm25, 18.2) with t2 > t1. -/
def c1ex1 : List Raw :=
  [{ date := some (.utcD (some "1")), datetimeF := none, parameter := some "pm25",
     value := some q15p5, unit := some "μg/m³", location := some "L1", locationId := none },
   { date := some (.utcD (some "2")), datetimeF := none, parameter := some "pm25",
     value := some q18p2, unit := some "μg/m³", location := some "L1", locationId := none }]

/-- Two same-timestamp pm25 records with values 10.0 and 20.0 (distinct
locations, so deduplication keeps both). -/
def c1ex2 : List Raw :=
  [{ date := some (.utcD (some "1")), datetimeF := none, parameter := some "pm25",
     value := some (qi 10), unit := some "μg/m³", location := some "L1", locationId := none },
   { date := some (.utcD (some "1")), datetimeF := none, parameter := some "pm25",
     value := some (qi 20), unit := some "μg/m³", location := some "L2", locationId := none }]

/-- pm25 at the (global) max timestamp 2, pm10 only at timestamp 1. -/
def c1data : List Raw :=
  [{ date := some (.utcD (some "2")), datetimeF := none, parameter := some "pm25",
     value := some q18p2, unit := some "μg/m³", location := some "L1", locationId := none },
   { date := some (.utcD (some "1")), datetimeF := none, parameter := some "pm10",
     value := some (qi 7), unit := some "μg/m³", location := some "L1", locationId := none }]

/-- C1 counterexample: `pm10` appears in the processed table, but
`get_latest_measurements` has no entry for it at all (the code keys the
result on the parameters present at the single global maximum timestamp,
not on each parameter's own maximum), so no parameter-wise mean is
produced for `pm10`. -/
theorem claim_C1_cex :
    (process_data c1data).map
        (fun t => (t.rows.map fun r => r.raw.parameter).contains (some "pm10")) = some true
    ∧ (get_latest_measurements (process_data c1data)).map
        (fun m => m.lookup (some "pm10")) = some none :=
  ⟨by decide, by decide⟩

def tEx1 : PTable := (process_data c1ex1).getD ⟨[], false⟩

def mEx1 : List (Option String × Entry) := (get_latest_measurements (some tEx1)).getD []

/-- C1 amended: `get_latest_measurements` keys its result on the
parameters appearing at the table's single maximum timestamp; each such
parameter maps to the arithmetic mean of its values at that timestamp
(which is then also that parameter's own maximum), stamped with the
maximum timestamp; parameters whose records all predate the maximum are
absent.  The two concrete examples of the claim hold: `18.2` for the
later timestamp, `15.0` for two same-timestamp records `10.0`, `20.0`. -/
theorem claim_C1_amended :
    (∀ (tbl : PTable) (m : List (Option String × Entry)),
      get_latest_measurements (some tbl) = some m →
      ∀ p : String,
        (p ∈ specParamsAtMax tbl ↔ (m.lookup (some p)).isSome = true)
        ∧ (p ∈ specParamsAtMax tbl →
            ((m.lookup (some p)).getD eDefault).value = specMeanAtMax tbl p
            ∧ ((m.lookup (some p)).getD eDefault).datetime = maxDt tbl.rows))
    ∧ ((((get_latest_measurements (process_data c1ex1)).getD []).lookup
          (some "pm25")).getD eDefault).value = some q18p2
    ∧ ((((get_latest_measurements (process_data c1ex1)).getD []).lookup
          (some "pm25")).getD eDefault).datetime = 2
    ∧ ((((get_latest_measurements (process_data c1ex2)).getD []).lookup
          (some "pm25")).getD eDefault).value = some (qi 15) := by
  refine ⟨?_, ?_, ?_, ?_⟩
  · intro tbl m h p
    simp only [get_latest_measurements] at h
    split at h
    · exact absurd h (by simp)
    · rw [Option.some_inj] at h
      subst h
      have hmem : some p ∈ pyUnique ((tbl.rows.filter fun r => r.dt == maxDt tbl.rows).map
          fun r => r.raw.parameter) ↔ p ∈ specParamsAtMax tbl := by
        rw [pyUnique_mem, specParamsAtMax]
        simp [List.mem_filterMap, List.mem_map]
      rw [lookup_map_self]
      constructor
      · by_cases hp : some p ∈ pyUnique ((tbl.rows.filter fun r => r.dt == maxDt tbl.rows).map
            fun r => r.raw.parameter)
        · simp [hp, hmem.1 hp]
        · simp only [if_neg hp, Option.isSome_none]
          constructor
          · intro hc
            exact absurd (hmem.2 hc) hp
          · intro hc
            exact absurd hc (by simp)
      · intro hp
        rw [if_pos (hmem.2 hp), Option.getD_some]
        refine ⟨?_, rfl⟩
        show (entryFor tbl (maxDt tbl.rows)
          (tbl.rows.filter fun r => r.dt == maxDt tbl.rows) (some p)).value
            = specMeanAtMax tbl p
        simp only [entryFor, groupRows, specMeanAtMax]
        rw [List.filter_filter]
  · have hred : (((get_latest_measurements (process_data c1ex1)).getD []).lookup
        (some "pm25")).getD eDefault
        = { value := meanVals [some q18p2], unit := "μg/m³", datetime := 2 } := rfl
    rw [hred, meanVals_singleton]
  · have hred : (((get_latest_measurements (process_data c1ex1)).getD []).lookup
        (some "pm25")).getD eDefault
        = { value := meanVals [some q18p2], unit := "μg/m³", datetime := 2 } := rfl
    rw [hred]
  · have hred : (((get_latest_measurements (process_data c1ex2)).getD []).lookup
        (some "pm25")).getD eDefault
        = { value := meanVals [some (qi 10), some (qi 20)], unit := "μg/m³", datetime := 1 } := rfl
    rw [hred, meanVals_pair]
    rw [qi_eq, qi_eq, qi_eq]
    simp only [Option.some_inj]
    norm_num

theorem claim_C1_amended_witness :
    ("pm25" ∈ specParamsAtMax tEx1 ↔ (mEx1.lookup (some "pm25")).isSome = true)
    ∧ ("pm25" ∈ specParamsAtMax tEx1 →
        ((mEx1.lookup (some "pm25")).getD eDefault).value = specMeanAtMax tEx1 "pm25"
        ∧ ((mEx1.lookup (some "pm25")).getD eDefault).datetime = maxDt tEx1.rows) :=
  claim_C1_amended.1 tEx1 mEx1 rfl "pm25"

end AirQuality
